import Mathlib

/-!
Shallow embedding of the TypeScript ambient declaration surface of
`packages/shim-deno/lib/shim-deno.lib.d.ts` (the `@deno/shim-deno` type
declaration file), together with theorems about the declared API surface.

The file under verification is a `.d.ts` declaration file: it contains no
executable code, only type-level declarations.  We therefore embed the
declaration syntax itself as data: a type expression AST (`TsType`), member
declarations of classes / interfaces / object types (`Member`), and top-level
declarations of the exported `Deno` namespace (`Decl`).  Every declaration of
the source file is transcribed, in source order, into the lists
`supportDecls`, `denoDecls`, `errorsDecls` and `testInternalsDecls` below.

Encoding conventions (the only deviations from raw TypeScript syntax):
* n-ary unions `a | b | c` are encoded as right-nested binary unions
  `union a (union b c)`; likewise intersections;
* a method member of an object *type literal* is encoded with `objMeth`,
  whose signature is a function type (`fn0`/`fn1`/`fn2`) carrying the
  declared parameter names and optionality flags;
* the fields of an object type literal are encoded as a `objCons` chain
  ending in `objNil`, in source order;
* `hasBody`/`hasInit` flags record whether the source declaration carries a
  function body resp. an initializer (in this ambient declaration file every
  such flag is `false`, as transcribed).
-/

set_option maxRecDepth 100000

namespace ShimDeno

/-- Abstract syntax of the TypeScript type expressions occurring in the
declaration file. -/
inductive TsType where
  /-- the primitive type `string` -/
  | str : TsType
  /-- the primitive type `number` -/
  | num : TsType
  /-- the primitive type `boolean` -/
  | boolT : TsType
  /-- the primitive type `bigint` -/
  | bigintT : TsType
  /-- the type `void` -/
  | voidT : TsType
  /-- the type `never` -/
  | neverT : TsType
  /-- the type `any` -/
  | anyT : TsType
  /-- the type `unknown` -/
  | unknownT : TsType
  /-- the type `undefined` -/
  | undefT : TsType
  /-- the type `null` -/
  | nullT : TsType
  /-- a string literal type such as `"net"` -/
  | lit (s : String) : TsType
  /-- a number literal type such as `0` -/
  | numLit (n : Nat) : TsType
  /-- the boolean literal type `true` -/
  | trueLit : TsType
  /-- the boolean literal type `false` -/
  | falseLit : TsType
  /-- a reference to a named type, e.g. `URL`, `Deno.FsFile` -/
  | ref (name : String) : TsType
  /-- a named type applied to one argument, e.g. `Promise<T>` -/
  | app1 (name : String) (a : TsType) : TsType
  /-- a named type applied to two arguments, e.g. `Record<K, V>` -/
  | app2 (name : String) (a b : TsType) : TsType
  /-- a union type `a | b` -/
  | union (a b : TsType) : TsType
  /-- an intersection type `a & b` -/
  | inter (a b : TsType) : TsType
  /-- an array type `a[]` -/
  | arr (a : TsType) : TsType
  /-- a readonly array type `readonly a[]` -/
  | roArr (a : TsType) : TsType
  /-- a tuple type with rest element `[a, ...b[]]` -/
  | tupleRest (a b : TsType) : TsType
  /-- a function type with no parameters `() => ret` -/
  | fn0 (ret : TsType) : TsType
  /-- a function type with one parameter -/
  | fn1 (p1 : String) (o1 : Bool) (a ret : TsType) : TsType
  /-- a function type with two parameters -/
  | fn2 (p1 : String) (o1 : Bool) (a : TsType) (p2 : String) (o2 : Bool) (b ret : TsType) : TsType
  /-- the empty object type literal tail -/
  | objNil : TsType
  /-- an object type literal field `name(?): ty;` followed by `rest` -/
  | objCons (name : String) (optional ro : Bool) (ty rest : TsType) : TsType
  /-- an object type literal method `name(...): ...;` (signature given as a
  function type) followed by `rest` -/
  | objMeth (name : String) (sig rest : TsType) : TsType
  /-- an index signature type `{ [index: key]: val }` -/
  | indexSig (key val : TsType) : TsType
  /-- a conditional type `base extends ext ? thn : els` -/
  | cond (base ext thn els : TsType) : TsType
  /-- an indexed access type `obj[key]` -/
  | idx (obj key : TsType) : TsType
  /-- a `typeof` type query, e.g. `typeof FsFile` -/
  | typeofRef (name : String) : TsType
  /-- the type `unique symbol` -/
  | uniqueSymbol : TsType
  /-- an import type `import("mod").name` -/
  | impRef (mod name : String) : TsType
  /-- an import type applied to one argument `import("mod").name<a>` -/
  | impRefApp (mod name : String) (a : TsType) : TsType
  deriving DecidableEq, Repr

/-- A declared value parameter of a function, method or constructor. -/
structure Param where
  name : String
  optional : Bool
  ty : TsType
  deriving DecidableEq, Repr

/-- A declared type parameter, with its `extends` constraint and default. -/
structure TyParam where
  name : String
  constraint : TsType
  dflt : TsType
  deriving DecidableEq, Repr

/-- A member declaration of a class or interface. -/
inductive Member where
  /-- a property `name(?): ty;`, possibly `readonly` -/
  | field (name : String) (optional ro : Bool) (ty : TsType) : Member
  /-- a `static` property -/
  | staticField (name : String) (ro : Bool) (ty : TsType) : Member
  /-- a method signature; `hasBody` records whether the source carries a body -/
  | method (name : String) (params : List Param) (ret : TsType) (hasBody : Bool) : Member
  /-- an optional method signature `name?(...): ret;` -/
  | optMethod (name : String) (params : List Param) (ret : TsType) : Member
  /-- a getter signature `get name(): ret;` -/
  | getter (name : String) (ret : TsType) (hasBody : Bool) : Member
  /-- a constructor signature -/
  | ctorSig (params : List Param) (hasBody : Bool) : Member
  /-- a call signature `(...): ret;` -/
  | callSig (params : List Param) (ret : TsType) : Member
  /-- a computed-symbol method such as `[Symbol.asyncIterator](): ret;` -/
  | symbolMethod (sym : String) (ret : TsType) : Member
  /-- an index signature member `[keyName: key]: val;` -/
  | indexMember (keyName : String) (key val : TsType) : Member
  /-- the `#private` marker slot of a class -/
  | privateSlot : Member
  deriving DecidableEq, Repr

/-- A top-level declaration (of the `Deno` namespace or of the module scope). -/
inductive Decl where
  /-- `function name<tyParams>(params): ret;` (one entry per overload);
  `hasBody` records whether the source declaration carries a body -/
  | funcD (name : String) (tyParams : List TyParam) (params : List Param)
      (ret : TsType) (hasBody : Bool) : Decl
  /-- `const name: ty;`; `hasInit` records whether an initializer is present -/
  | constD (name : String) (ty : TsType) (hasInit : Bool) : Decl
  /-- `class name<tyParams> extends e implements i { members }` -/
  | classD (name : String) (tyParams : List TyParam) (ext : Option String)
      (impl : Option String) (members : List Member) : Decl
  /-- `interface name extends es { members }` (one entry per declaration;
  TypeScript merges multiple declarations of the same interface name) -/
  | interfaceD (name : String) (ext : List TsType) (members : List Member) : Decl
  /-- `type name = ty;` -/
  | typeAliasD (name : String) (ty : TsType) : Decl
  /-- `enum name { cases }` with explicit numeric values -/
  | enumD (name : String) (cases : List (String × Nat)) : Decl
  /-- `namespace name { ... }`; the member declarations are kept in a separate
  named list (see `errorsDecls`) -/
  | namespaceD (name : String) : Decl
  deriving DecidableEq, Repr

/-- Shorthand for `string | URL`, the recurring path parameter type. -/
def pathT : TsType := .union .str (.ref "URL")

/-- Shorthand for `Promise<t>`. -/
def prom (t : TsType) : TsType := .app1 "Promise" t

/-- Shorthand for `Uint8Array`. -/
def u8 : TsType := .ref "Uint8Array"

/-- Shorthand for `Promise<void>`. -/
def promVoid : TsType := prom .voidT

/-- Required parameter. -/
def pr (n : String) (t : TsType) : Param := ⟨n, false, t⟩

/-- Optional parameter (`name?: ty`). -/
def pOpt (n : String) (t : TsType) : Param := ⟨n, true, t⟩

/-- Required, mutable field member. -/
def fld (n : String) (t : TsType) : Member := .field n false false t

/-- Optional field member (`name?: ty;`). -/
def fldOpt (n : String) (t : TsType) : Member := .field n true false t

/-- Readonly required field member. -/
def fldRO (n : String) (t : TsType) : Member := .field n false true t

/-- Method member without body (as declared in the `.d.ts`). -/
def meth (n : String) (ps : List Param) (r : TsType) : Member := .method n ps r false

/-- Exported function declaration without body (as declared in the `.d.ts`). -/
def efn (n : String) (ps : List Param) (r : TsType) : Decl := .funcD n [] ps r false

/-- Exported const declaration without initializer. -/
def econst (n : String) (t : TsType) : Decl := .constD n t false

/-!
Transcription of the non-exported ambient support declarations at the top of
`shim-deno.lib.d.ts` (DOM event types used by `PermissionStatus`).  These
precede the `export declare namespace Deno` block and are private to the
module (they carry no `export`).
-/

/-- The non-exported support declarations of the file, in source order. -/
def supportDecls : List Decl := [
  .classD "EventTarget" [] none none [
    meth "addEventListener" [pr "type" .str,
      pr "listener" (.union (.ref "EventListenerOrEventListenerObject") .nullT),
      pOpt "options" (.union .boolT (.ref "AddEventListenerOptions"))] .voidT,
    meth "dispatchEvent" [pr "event" (.ref "Event")] .boolT,
    meth "removeEventListener" [pr "type" .str,
      pr "callback" (.union (.ref "EventListenerOrEventListenerObject") .nullT),
      pOpt "options" (.union (.ref "EventListenerOptions") .boolT)] .voidT],
  .classD "Event" [] none none [
    fldRO "bubbles" .boolT,
    fld "cancelBubble" .boolT,
    fldRO "cancelable" .boolT,
    fldRO "composed" .boolT,
    fldRO "currentTarget" (.union (.ref "EventTarget") .nullT),
    fldRO "defaultPrevented" .boolT,
    fldRO "eventPhase" .num,
    fldRO "isTrusted" .boolT,
    fldRO "target" (.union (.ref "EventTarget") .nullT),
    fldRO "timeStamp" .num,
    fldRO "type" .str,
    fldRO "AT_TARGET" .num,
    fldRO "BUBBLING_PHASE" .num,
    fldRO "CAPTURING_PHASE" .num,
    fldRO "NONE" .num,
    .staticField "AT_TARGET" true .num,
    .staticField "BUBBLING_PHASE" true .num,
    .staticField "CAPTURING_PHASE" true .num,
    .staticField "NONE" true .num,
    .ctorSig [pr "type" .str, pOpt "eventInitDict" (.ref "EventInit")] false,
    meth "composedPath" [] (.arr (.ref "EventTarget")),
    meth "preventDefault" [] .voidT,
    meth "stopImmediatePropagation" [] .voidT,
    meth "stopPropagation" [] .voidT],
  .interfaceD "EventInit" [] [
    fldOpt "bubbles" .boolT,
    fldOpt "cancelable" .boolT,
    fldOpt "composed" .boolT],
  .interfaceD "EventListenerOptions" [] [
    fldOpt "capture" .boolT],
  .interfaceD "AddEventListenerOptions" [.ref "EventListenerOptions"] [
    fldOpt "once" .boolT,
    fldOpt "passive" .boolT,
    fldOpt "signal" (.ref "AbortSignal")],
  .interfaceD "EventListener" [] [
    .callSig [pr "evt" (.ref "Event")] (.union .voidT promVoid)],
  .interfaceD "EventListenerObject" [] [
    meth "handleEvent" [pr "evt" (.ref "Event")] (.union .voidT promVoid)],
  .typeAliasD "EventListenerOrEventListenerObject"
    (.union (.ref "EventListener") (.ref "EventListenerObject"))]

/-!
Transcription of the `export declare namespace Deno` block, in source order.
The list is split into consecutive chunks (`denoDecls1` .. `denoDecls6`) only
to keep the definitions manageable; `denoDecls` is their concatenation.
-/

/-- The recurring test-function type `(t: TestContext) => void | Promise<void>`. -/
def testFnTy : TsType := .fn1 "t" false (.ref "TestContext") (.union .voidT promVoid)

/-- Chunk 1 of the `Deno` namespace: the `File` constant, the `FsFile`,
`Permissions` and `PermissionStatus` classes and the `SeekMode` enum. -/
def denoDecls1 : List Decl := [
  econst "File" (.typeofRef "FsFile"),
  .classD "FsFile" [] none (some "Deno.FsFile") [
    fldRO "rid" .num,
    .ctorSig [pr "rid" .num] false,
    .getter "readable" (.app1 "ReadableStream" u8) false,
    .getter "writable" (.app1 "WritableStream" u8) false,
    meth "write" [pr "p" u8] (prom .num),
    meth "writeSync" [pr "p" u8] .num,
    meth "truncate" [pOpt "len" .num] promVoid,
    meth "truncateSync" [pOpt "len" .num] .voidT,
    meth "read" [pr "p" u8] (prom (.union .num .nullT)),
    meth "readSync" [pr "p" u8] (.union .num .nullT),
    meth "seek" [pr "_offset" .num, pr "_whence" (.ref "Deno.SeekMode")] (prom .num),
    meth "seekSync" [pr "_offset" .num, pr "_whence" (.ref "Deno.SeekMode")] .num,
    meth "stat" [] (prom (.ref "Deno.FileInfo")),
    meth "statSync" [] (.ref "Deno.FileInfo"),
    meth "close" [] .voidT],
  .classD "Permissions" [] none (some "Deno.Permissions") [
    meth "query" [pr "desc" (.ref "Deno.PermissionDescriptor")] (prom (.ref "PermissionStatus")),
    meth "querySync" [pr "_desc" (.ref "Deno.PermissionDescriptor")] (.ref "PermissionStatus"),
    meth "revoke" [pr "desc" (.ref "Deno.PermissionDescriptor")] (prom (.ref "PermissionStatus")),
    meth "revokeSync" [pr "_desc" (.ref "Deno.PermissionDescriptor")] (.ref "PermissionStatus"),
    meth "request" [pr "desc" (.ref "Deno.PermissionDescriptor")] (prom (.ref "PermissionStatus")),
    meth "requestSync" [pr "desc" (.ref "Deno.PermissionDescriptor")] (.ref "PermissionStatus")],
  .classD "PermissionStatus" [] (some "EventTarget") (some "Deno.PermissionStatus") [
    fldRO "state" (.ref "Deno.PermissionState"),
    fld "onchange" (.union
      (.fn2 "this" false (.ref "PermissionStatus") "ev" false (.ref "Event") .anyT) .nullT)],
  .enumD "SeekMode" [("Start", 0), ("Current", 1), ("End", 2)]]

/-- Chunk 2 of the `Deno` namespace: the free functions from `isatty` through
`mkdirSync`, in source order (one entry per declared overload). -/
def denoDecls2 : List Decl := [
  efn "isatty" [pr "fd" .num] .boolT,
  efn "chdir" [pr "directory" pathT] .voidT,
  efn "chmod" [pr "path" pathT, pr "mode" .num] promVoid,
  efn "chmodSync" [pr "path" pathT, pr "mode" .num] .voidT,
  efn "chown" [pr "path" pathT, pr "uid" (.union .num .nullT),
    pr "gid" (.union .num .nullT)] promVoid,
  efn "chownSync" [pr "path" pathT, pr "uid" (.union .num .nullT),
    pr "gid" (.union .num .nullT)] .voidT,
  efn "close" [pr "rid" .num] .voidT,
  efn "connect" [pr "options" (.ref "ConnectOptions")] (prom (.ref "TcpConn")),
  efn "connect" [pr "options" (.ref "ConnectOptions")] (prom (.ref "TcpConn")),
  efn "connect" [pr "options" (.ref "UnixConnectOptions")] (prom (.ref "UnixConn")),
  efn "connectTls" [pr "options" (.ref "ConnectTlsOptions")] (prom (.ref "TlsConn")),
  efn "connectTls" [pr "options" (.ref "ConnectTlsOptions")] (prom (.ref "TlsConn")),
  efn "copy" [pr "src" (.ref "Reader"), pr "dst" (.ref "Writer"),
    pOpt "options" (.objCons "bufSize" true false .num .objNil)] (prom .num),
  efn "copyFile" [pr "fromPath" pathT, pr "toPath" pathT] promVoid,
  efn "copyFileSync" [pr "fromPath" pathT, pr "toPath" pathT] .voidT,
  efn "create" [pr "path" pathT] (prom (.ref "FsFile")),
  efn "createSync" [pr "path" pathT] (.ref "FsFile"),
  efn "cwd" [] .str,
  efn "execPath" [] .str,
  efn "exit" [pOpt "code" .num] .neverT,
  efn "fdatasync" [pr "rid" .num] promVoid,
  efn "fdatasyncSync" [pr "rid" .num] .voidT,
  efn "fstat" [pr "rid" .num] (prom (.ref "FileInfo")),
  efn "fstatSync" [pr "rid" .num] (.ref "FileInfo"),
  efn "fsync" [pr "rid" .num] promVoid,
  efn "fsyncSync" [pr "rid" .num] .voidT,
  efn "ftruncate" [pr "rid" .num, pOpt "len" .num] promVoid,
  efn "ftruncateSync" [pr "rid" .num, pOpt "len" .num] .voidT,
  efn "gid" [] (.union .num .nullT),
  efn "hostname" [] .str,
  efn "inspect" [pr "value" .unknownT, pOpt "options" (.ref "InspectOptions")] .str,
  efn "kill" [pr "pid" .num, pOpt "signo" (.ref "Signal")] .voidT,
  efn "link" [pr "oldpath" .str, pr "newpath" .str] promVoid,
  efn "linkSync" [pr "oldpath" .str, pr "newpath" .str] .voidT,
  efn "listen" [pr "options" (.inter (.ref "TcpListenOptions")
    (.objCons "transport" true false (.lit "tcp") .objNil))] (.ref "Listener"),
  efn "listen" [pr "options" (.inter (.ref "UnixListenOptions")
    (.objCons "transport" false false (.lit "unix") .objNil))] (.ref "Listener"),
  efn "listenTls" [pr "options" (.ref "ListenTlsOptions")] (.ref "TlsListener"),
  efn "loadavg" [] (.arr .num),
  efn "lstat" [pr "path" pathT] (prom (.ref "FileInfo")),
  efn "lstatSync" [pr "path" pathT] (.ref "FileInfo"),
  efn "makeTempDir" [pOpt "options" (.ref "MakeTempOptions")] (prom .str),
  efn "makeTempDirSync" [pOpt "options" (.ref "MakeTempOptions")] .str,
  efn "makeTempFile" [pOpt "options" (.ref "MakeTempOptions")] (prom .str),
  efn "makeTempFileSync" [pOpt "options" (.ref "MakeTempOptions")] .str,
  efn "memoryUsage" [] (.ref "MemoryUsage"),
  efn "mkdir" [pr "path" pathT, pOpt "options" (.ref "MkdirOptions")] promVoid,
  efn "mkdirSync" [pr "path" pathT, pOpt "options" (.ref "MkdirOptions")] .voidT]

/-- The intersection type used by the piped-`stdin` branch of
`Deno.Process`. -/
def processWriterEnd : TsType :=
  .inter (.ref "Deno.Writer") (.inter (.ref "Deno.Closer")
    (.objCons "writable" false false (.impRefApp "stream/web" "WritableStream" u8) .objNil))

/-- The intersection type used by the piped-`stdout`/`stderr` branches of
`Deno.Process`. -/
def processReaderEnd : TsType :=
  .inter (.ref "Deno.Reader") (.inter (.ref "Deno.Closer")
    (.objCons "readable" false false (.impRefApp "stream/web" "ReadableStream" u8) .objNil))

/-- Chunk 3 of the `Deno` namespace: the free functions from `open` through
`resolveDns`, the `Process` class, `run` and its option alias. -/
def denoDecls3 : List Decl := [
  efn "open" [pr "path" pathT, pOpt "options" (.ref "OpenOptions")] (prom (.ref "FsFile")),
  efn "openSync" [pr "path" pathT, pOpt "options" (.ref "OpenOptions")] (.ref "FsFile"),
  efn "osRelease" [] .str,
  efn "osUptime" [] .num,
  efn "read" [pr "rid" .num, pr "buffer" u8] (prom (.union .num .nullT)),
  efn "readDir" [pr "path" pathT] (.app1 "AsyncIterable" (.ref "DirEntry")),
  efn "readDirSync" [pr "path" pathT] (.app1 "Iterable" (.ref "DirEntry")),
  efn "readFile" [pr "path" pathT, pOpt "options" (.ref "ReadFileOptions")] (prom u8),
  efn "readFileSync" [pr "path" pathT] u8,
  efn "readLink" [pr "path" pathT] (prom .str),
  efn "readLinkSync" [pr "path" pathT] .str,
  efn "readSync" [pr "rid" .num, pr "buffer" u8] (.union .num .nullT),
  efn "readTextFile" [pr "path" pathT, pOpt "options" (.ref "ReadFileOptions")] (prom .str),
  efn "readTextFileSync" [pr "path" pathT] .str,
  efn "realPath" [pr "path" pathT] (prom .str),
  efn "realPathSync" [pr "path" pathT] .str,
  efn "remove" [pr "path" pathT, pOpt "options" (.ref "RemoveOptions")] promVoid,
  efn "removeSync" [pr "path" pathT, pOpt "options" (.ref "RemoveOptions")] .voidT,
  efn "rename" [pr "oldpath" pathT, pr "newpath" pathT] promVoid,
  efn "renameSync" [pr "oldpath" pathT, pr "newpath" pathT] .voidT,
  efn "resolveDns" [pr "query" .str,
    pr "recordType" (.union (.lit "A") (.union (.lit "AAAA") (.union (.lit "ANAME")
      (.union (.lit "CNAME") (.union (.lit "NS") (.lit "PTR")))))),
    pOpt "options" (.ref "ResolveDnsOptions")] (prom (.arr .str)),
  efn "resolveDns" [pr "query" .str, pr "recordType" (.lit "CAA"),
    pOpt "options" (.ref "ResolveDnsOptions")] (prom (.arr (.ref "CAARecord"))),
  efn "resolveDns" [pr "query" .str, pr "recordType" (.lit "MX"),
    pOpt "options" (.ref "ResolveDnsOptions")] (prom (.arr (.ref "MXRecord"))),
  efn "resolveDns" [pr "query" .str, pr "recordType" (.lit "NAPTR"),
    pOpt "options" (.ref "ResolveDnsOptions")] (prom (.arr (.ref "NAPTRRecord"))),
  efn "resolveDns" [pr "query" .str, pr "recordType" (.lit "SOA"),
    pOpt "options" (.ref "ResolveDnsOptions")] (prom (.arr (.ref "SOARecord"))),
  efn "resolveDns" [pr "query" .str, pr "recordType" (.lit "SRV"),
    pOpt "options" (.ref "ResolveDnsOptions")] (prom (.arr (.ref "SRVRecord"))),
  efn "resolveDns" [pr "query" .str, pr "recordType" (.lit "TXT"),
    pOpt "options" (.ref "ResolveDnsOptions")] (prom (.arr (.arr .str))),
  efn "resolveDns" [pr "query" .str, pr "recordType" (.ref "RecordType"),
    pOpt "options" (.ref "ResolveDnsOptions")]
    (prom (.union (.arr .str) (.union (.arr (.ref "CAARecord"))
      (.union (.arr (.ref "MXRecord")) (.union (.arr (.ref "NAPTRRecord"))
        (.union (.arr (.ref "SOARecord")) (.union (.arr (.ref "SRVRecord"))
          (.arr (.arr .str))))))))),
  .classD "Process" [⟨"T", .ref "Deno.RunOptions", .ref "Deno.RunOptions"⟩]
    none (some "Deno.Process<T>") [
    .privateSlot,
    .getter "rid" .num false,
    .getter "pid" .num false,
    .getter "stdin" (.cond (.idx (.ref "T") (.lit "stdin")) (.lit "piped")
      processWriterEnd (.union processWriterEnd .nullT)) false,
    .getter "stdout" (.cond (.idx (.ref "T") (.lit "stdout")) (.lit "piped")
      processReaderEnd (.union processReaderEnd .nullT)) false,
    .getter "stderr" (.cond (.idx (.ref "T") (.lit "stderr")) (.lit "piped")
      processReaderEnd (.union processReaderEnd .nullT)) false,
    meth "status" [] (prom (.ref "Deno.ProcessStatus")),
    meth "output" [] (prom u8),
    meth "stderrOutput" [] (prom u8),
    meth "close" [] .voidT,
    meth "kill" [pOpt "signo" .str] .voidT],
  .funcD "run" [⟨"T", .ref "RunOptions", .ref "RunOptions"⟩]
    [pr "opt" (.ref "T")] (.app1 "Process" (.ref "T")) false,
  .funcD "run" [⟨"T", .ref "UnstableRunOptions", .ref "UnstableRunOptions"⟩]
    [pr "opt" (.ref "T")] (.app1 "Process" (.ref "T")) false,
  .typeAliasD "UnstableRunOptions" (.inter (.ref "RunOptions")
    (.objCons "clearEnv" true false .boolT (.objCons "gid" true false .num
      (.objCons "uid" true false .num .objNil))))]

/-- Chunk 4 of the `Deno` namespace: the free functions from `shutdown`
through `writeTextFileSync`, plus the `args` constant and the `Addr` alias. -/
def denoDecls4 : List Decl := [
  efn "shutdown" [pr "rid" .num] promVoid,
  efn "stat" [pr "path" pathT] (prom (.ref "FileInfo")),
  efn "statSync" [pr "path" pathT] (.ref "FileInfo"),
  efn "symlink" [pr "oldpath" pathT, pr "newpath" pathT,
    pOpt "options" (.ref "SymlinkOptions")] promVoid,
  efn "symlinkSync" [pr "oldpath" pathT, pr "newpath" pathT,
    pOpt "options" (.ref "SymlinkOptions")] .voidT,
  efn "test" [pr "t" (.ref "TestDefinition")] .voidT,
  efn "test" [pr "name" .str, pr "fn" testFnTy] .voidT,
  efn "test" [pr "fn" testFnTy] .voidT,
  efn "test" [pr "name" .str,
    pr "options" (.app2 "Omit" (.ref "TestDefinition") (.union (.lit "fn") (.lit "name"))),
    pr "fn" testFnTy] .voidT,
  efn "test" [pr "options" (.app2 "Omit" (.ref "TestDefinition") (.lit "fn")),
    pr "fn" testFnTy] .voidT,
  efn "test" [pr "options" (.app2 "Omit" (.ref "TestDefinition") (.union (.lit "fn") (.lit "name"))),
    pr "fn" testFnTy] .voidT,
  efn "truncate" [pr "name" .str, pOpt "len" .num] promVoid,
  efn "truncateSync" [pr "name" .str, pOpt "len" .num] .voidT,
  efn "uid" [] (.union .num .nullT),
  efn "watchFs" [pr "paths" (.union .str (.arr .str)),
    pOpt "options" (.objCons "recursive" false false .boolT .objNil)] (.ref "FsWatcher"),
  efn "write" [pr "rid" .num, pr "data" u8] (prom .num),
  efn "writeFile" [pr "path" pathT, pr "data" (.union u8 (.app1 "ReadableStream" u8)),
    pOpt "options" (.ref "WriteFileOptions")] promVoid,
  efn "writeFileSync" [pr "path" pathT, pr "data" u8,
    pOpt "options" (.ref "WriteFileOptions")] .voidT,
  efn "writeSync" [pr "rid" .num, pr "data" u8] .num,
  efn "writeTextFile" [pr "path" pathT, pr "data" (.union .str (.app1 "ReadableStream" .str)),
    pOpt "options" (.ref "WriteFileOptions")] promVoid,
  efn "writeTextFileSync" [pr "path" pathT, pr "data" .str,
    pOpt "options" (.ref "WriteFileOptions")] .voidT,
  econst "args" (.arr .str),
  .typeAliasD "Addr" (.union (.ref "NetAddr") (.ref "UnixAddr"))]

/-- Chunk 5 of the `Deno` namespace: the interface and type-alias block from
`Closer` through `RecordType`, in source order. -/
def denoDecls5 : List Decl := [
  .interfaceD "Closer" [] [
    meth "close" [] .voidT],
  .interfaceD "Conn" [.ref "Reader", .ref "Writer", .ref "Closer"] [
    fldRO "localAddr" (.ref "Addr"),
    fldRO "remoteAddr" (.ref "Addr"),
    fldRO "rid" .num,
    fldRO "readable" (.app1 "ReadableStream" u8),
    fldRO "writable" (.app1 "WritableStream" u8),
    meth "closeWrite" [] promVoid,
    meth "ref" [] .voidT,
    meth "unref" [] .voidT],
  .interfaceD "ConnectOptions" [] [
    fld "port" .num,
    fldOpt "hostname" .str,
    fldOpt "transport" (.lit "tcp")],
  .interfaceD "ConnectTlsOptions" [] [
    fld "port" .num,
    fldOpt "hostname" .str,
    fldOpt "certFile" .str,
    fldOpt "caCerts" (.arr .str)],
  .interfaceD "ConnectTlsOptions" [] [
    fldOpt "certChain" .str,
    fldOpt "privateKey" .str,
    fldOpt "alpnProtocols" (.arr .str)],
  .interfaceD "DirEntry" [] [
    fld "name" .str,
    fld "isFile" .boolT,
    fld "isDirectory" .boolT,
    fld "isSymlink" .boolT],
  .interfaceD "EnvPermissionDescriptor" [] [
    fld "name" (.lit "env"),
    fldOpt "variable" .str],
  .interfaceD "FfiPermissionDescriptor" [] [
    fld "name" (.lit "ffi"),
    fldOpt "path" pathT],
  .interfaceD "SysPermissionDescriptor" [] [
    fld "name" (.lit "sys"),
    fldOpt "kind" (.union (.lit "loadavg") (.union (.lit "hostname")
      (.union (.lit "systemMemoryInfo") (.union (.lit "networkInterfaces")
        (.union (.lit "osRelease") (.union (.lit "osUptime")
          (.union (.lit "uid") (.lit "gid"))))))))],
  .interfaceD "Env" [] [
    meth "get" [pr "key" .str] (.union .str .undefT),
    meth "set" [pr "key" .str, pr "value" .str] .voidT,
    meth "delete" [pr "key" .str] .voidT,
    meth "has" [pr "key" .str] .boolT,
    meth "toObject" [] (.indexSig .str .str)],
  .interfaceD "FileInfo" [] [
    fld "isFile" .boolT,
    fld "isDirectory" .boolT,
    fld "isSymlink" .boolT,
    fld "size" .num,
    fld "mtime" (.union (.ref "Date") .nullT),
    fld "atime" (.union (.ref "Date") .nullT),
    fld "birthtime" (.union (.ref "Date") .nullT),
    fld "dev" .num,
    fld "ino" (.union .num .nullT),
    fld "mode" (.union .num .nullT),
    fld "nlink" (.union .num .nullT),
    fld "uid" (.union .num .nullT),
    fld "gid" (.union .num .nullT),
    fld "rdev" (.union .num .nullT),
    fld "blksize" (.union .num .nullT),
    fld "blocks" (.union .num .nullT)],
  .interfaceD "FsEvent" [] [
    fld "kind" (.union (.lit "any") (.union (.lit "access") (.union (.lit "create")
      (.union (.lit "modify") (.union (.lit "remove") (.lit "other")))))),
    fld "paths" (.arr .str),
    fldOpt "flag" (.ref "FsEventFlag")],
  .typeAliasD "FsEventFlag" (.lit "rescan"),
  .interfaceD "FsWatcher" [.app1 "AsyncIterable" (.ref "FsEvent")] [
    fldRO "rid" .num,
    meth "close" [] .voidT,
    .optMethod "return" [pOpt "value" .anyT] (prom (.app1 "IteratorResult" (.ref "FsEvent"))),
    .symbolMethod "Symbol.asyncIterator" (.app1 "AsyncIterableIterator" (.ref "FsEvent"))],
  .interfaceD "HrtimePermissionDescriptor" [] [
    fld "name" (.lit "hrtime")],
  .interfaceD "InspectOptions" [] [
    fldOpt "colors" .boolT,
    fldOpt "compact" .boolT,
    fldOpt "depth" .num,
    fldOpt "iterableLimit" .num,
    fldOpt "showProxy" .boolT,
    fldOpt "sorted" .boolT,
    fldOpt "trailingComma" .boolT,
    fldOpt "getters" .boolT,
    fldOpt "showHidden" .boolT,
    fldOpt "strAbbreviateSize" .num],
  .interfaceD "Listener" [.app1 "AsyncIterable" (.ref "Conn")] [
    fldRO "addr" (.ref "Addr"),
    fldRO "rid" .num,
    meth "accept" [] (prom (.ref "Conn")),
    meth "close" [] .voidT,
    .symbolMethod "Symbol.asyncIterator" (.app1 "AsyncIterableIterator" (.ref "Conn")),
    meth "ref" [] .voidT,
    meth "unref" [] .voidT],
  .interfaceD "ListenOptions" [] [
    fld "port" .num,
    fldOpt "hostname" .str],
  .interfaceD "ListenTlsOptions" [.ref "TcpListenOptions"] [
    fldOpt "key" .str,
    fldOpt "cert" .str,
    fldOpt "certFile" .str,
    fldOpt "keyFile" .str,
    fldOpt "transport" (.lit "tcp")],
  .interfaceD "ListenTlsOptions" [] [
    fldOpt "alpnProtocols" (.arr .str)],
  .interfaceD "MakeTempOptions" [] [
    fldOpt "dir" .str,
    fldOpt "prefix" .str,
    fldOpt "suffix" .str],
  .interfaceD "MemoryUsage" [] [
    fld "rss" .num,
    fld "heapTotal" .num,
    fld "heapUsed" .num,
    fld "external" .num],
  .interfaceD "Metrics" [.ref "OpMetrics"] [
    fld "ops" (.app2 "Record" .str (.ref "OpMetrics"))],
  .interfaceD "MkdirOptions" [] [
    fldOpt "recursive" .boolT,
    fldOpt "mode" .num],
  .interfaceD "NetAddr" [] [
    fld "transport" (.union (.lit "tcp") (.lit "udp")),
    fld "hostname" .str,
    fld "port" .num],
  .interfaceD "NetPermissionDescriptor" [] [
    fld "name" (.lit "net"),
    fldOpt "host" .str],
  .interfaceD "OpenOptions" [] [
    fldOpt "read" .boolT,
    fldOpt "write" .boolT,
    fldOpt "append" .boolT,
    fldOpt "truncate" .boolT,
    fldOpt "create" .boolT,
    fldOpt "createNew" .boolT,
    fldOpt "mode" .num],
  .interfaceD "OpMetrics" [] [
    fld "opsDispatched" .num,
    fld "opsDispatchedSync" .num,
    fld "opsDispatchedAsync" .num,
    fld "opsDispatchedAsyncUnref" .num,
    fld "opsCompleted" .num,
    fld "opsCompletedSync" .num,
    fld "opsCompletedAsync" .num,
    fld "opsCompletedAsyncUnref" .num,
    fld "bytesSentControl" .num,
    fld "bytesSentData" .num,
    fld "bytesReceived" .num],
  .typeAliasD "PermissionDescriptor" (.union (.ref "RunPermissionDescriptor")
    (.union (.ref "ReadPermissionDescriptor") (.union (.ref "WritePermissionDescriptor")
      (.union (.ref "NetPermissionDescriptor") (.union (.ref "EnvPermissionDescriptor")
        (.union (.ref "SysPermissionDescriptor") (.union (.ref "FfiPermissionDescriptor")
          (.ref "HrtimePermissionDescriptor")))))))),
  .typeAliasD "PermissionName" (.union (.lit "run") (.union (.lit "read")
    (.union (.lit "write") (.union (.lit "net") (.union (.lit "env")
      (.union (.lit "sys") (.union (.lit "ffi") (.lit "hrtime")))))))),
  .typeAliasD "PermissionOptions" (.union (.lit "inherit") (.union (.lit "none")
    (.ref "PermissionOptionsObject"))),
  .interfaceD "PermissionOptionsObject" [] [
    fldOpt "env" (.union (.lit "inherit") (.union .boolT (.arr .str))),
    fldOpt "sys" (.union (.lit "inherit") (.union .boolT (.arr .str))),
    fldOpt "hrtime" (.union (.lit "inherit") .boolT),
    fldOpt "net" (.union (.lit "inherit") (.union .boolT (.arr .str))),
    fldOpt "ffi" (.union (.lit "inherit") (.union .boolT (.app1 "Array" pathT))),
    fldOpt "read" (.union (.lit "inherit") (.union .boolT (.app1 "Array" pathT))),
    fldOpt "run" (.union (.lit "inherit") (.union .boolT (.app1 "Array" pathT))),
    fldOpt "write" (.union (.lit "inherit") (.union .boolT (.app1 "Array" pathT)))],
  .typeAliasD "PermissionState" (.union (.lit "granted")
    (.union (.lit "denied") (.lit "prompt"))),
  .interfaceD "PermissionStatusEventMap" [] [
    fld "change" (.ref "Event")],
  .typeAliasD "ProcessStatus" (.union
    (.objCons "success" false false .trueLit (.objCons "code" false false (.numLit 0)
      (.objCons "signal" true false .undefT .objNil)))
    (.objCons "success" false false .falseLit (.objCons "code" false false .num
      (.objCons "signal" true false .num .objNil)))),
  .interfaceD "Reader" [] [
    meth "read" [pr "p" u8] (prom (.union .num .nullT))],
  .interfaceD "ReaderSync" [] [
    meth "readSync" [pr "p" u8] (.union .num .nullT)],
  .interfaceD "ReadFileOptions" [] [
    fldOpt "signal" (.ref "AbortSignal")],
  .interfaceD "ReadPermissionDescriptor" [] [
    fld "name" (.lit "read"),
    fldOpt "path" pathT],
  .interfaceD "RemoveOptions" [] [
    fldOpt "recursive" .boolT],
  .interfaceD "ResourceMap" [] [
    .indexMember "rid" .num .unknownT],
  .interfaceD "RunOptions" [] [
    fld "cmd" (.union (.roArr .str) (.tupleRest pathT .str)),
    fldOpt "cwd" .str,
    fldOpt "env" (.app2 "Record" .str .str),
    fldOpt "stdout" (.union (.lit "inherit") (.union (.lit "piped") (.union (.lit "null") .num))),
    fldOpt "stderr" (.union (.lit "inherit") (.union (.lit "piped") (.union (.lit "null") .num))),
    fldOpt "stdin" (.union (.lit "inherit") (.union (.lit "piped") (.union (.lit "null") .num)))],
  .interfaceD "RunPermissionDescriptor" [] [
    fld "name" (.lit "run"),
    fldOpt "command" pathT],
  .interfaceD "Seeker" [] [
    meth "seek" [pr "offset" (.union .num .bigintT), pr "whence" (.ref "SeekMode")] (prom .num)],
  .interfaceD "SeekerSync" [] [
    meth "seekSync" [pr "offset" .num, pr "whence" (.ref "SeekMode")] .num],
  .interfaceD "SetRawOptions" [] [
    fld "cbreak" .boolT],
  .typeAliasD "Signal" (.union (.lit "SIGABRT") (.union (.lit "SIGALRM")
    (.union (.lit "SIGBREAK") (.union (.lit "SIGBUS") (.union (.lit "SIGCHLD")
    (.union (.lit "SIGCONT") (.union (.lit "SIGEMT") (.union (.lit "SIGFPE")
    (.union (.lit "SIGHUP") (.union (.lit "SIGILL") (.union (.lit "SIGINFO")
    (.union (.lit "SIGINT") (.union (.lit "SIGIO") (.union (.lit "SIGKILL")
    (.union (.lit "SIGPIPE") (.union (.lit "SIGPROF") (.union (.lit "SIGPWR")
    (.union (.lit "SIGQUIT") (.union (.lit "SIGSEGV") (.union (.lit "SIGSTKFLT")
    (.union (.lit "SIGSTOP") (.union (.lit "SIGSYS") (.union (.lit "SIGTERM")
    (.union (.lit "SIGTRAP") (.union (.lit "SIGTSTP") (.union (.lit "SIGTTIN")
    (.union (.lit "SIGTTOU") (.union (.lit "SIGURG") (.union (.lit "SIGUSR1")
    (.union (.lit "SIGUSR2") (.union (.lit "SIGVTALRM") (.union (.lit "SIGWINCH")
    (.union (.lit "SIGXCPU") (.lit "SIGXFSZ")))))))))))))))))))))))))))))))))),
  .interfaceD "SymlinkOptions" [] [
    fld "type" (.union (.lit "file") (.lit "dir"))],
  .interfaceD "TestDefinition" [] [
    fld "fn" testFnTy,
    fld "name" .str,
    fldOpt "ignore" .boolT,
    fldOpt "only" .boolT,
    fldOpt "sanitizeOps" .boolT,
    fldOpt "sanitizeResources" .boolT,
    fldOpt "sanitizeExit" .boolT,
    fldOpt "permissions" (.ref "PermissionOptions")],
  .interfaceD "TestStepDefinition" [] [
    fld "fn" testFnTy,
    fld "name" .str,
    fldOpt "ignore" .boolT,
    fldOpt "sanitizeOps" .boolT,
    fldOpt "sanitizeResources" .boolT,
    fldOpt "sanitizeExit" .boolT],
  .interfaceD "TestContext" [] [
    fld "name" .str,
    fld "origin" .str,
    fldOpt "parent" (.ref "TestContext"),
    meth "step" [pr "definition" (.ref "TestStepDefinition")] (prom .boolT),
    meth "step" [pr "name" .str, pr "fn" testFnTy] (prom .boolT),
    meth "step" [pr "fn" testFnTy] (prom .boolT)],
  .interfaceD "TcpConn" [.ref "Conn"] [
    meth "setNoDelay" [pOpt "noDelay" .boolT] .voidT,
    meth "setKeepAlive" [pOpt "keepAlive" .boolT] .voidT],
  .interfaceD "TcpListenOptions" [.ref "ListenOptions"] [],
  .interfaceD "TcpListenOptions" [.ref "ListenOptions"] [
    fldOpt "reusePort" .boolT],
  .interfaceD "TlsConn" [.ref "Conn"] [
    meth "handshake" [] (prom (.ref "TlsHandshakeInfo"))],
  .interfaceD "TlsConn" [.ref "Conn"] [
    meth "handshake" [] (prom (.ref "TlsHandshakeInfo"))],
  .interfaceD "TlsListener" [.ref "Listener", .app1 "AsyncIterable" (.ref "TlsConn")] [
    meth "accept" [] (prom (.ref "TlsConn")),
    .symbolMethod "Symbol.asyncIterator" (.app1 "AsyncIterableIterator" (.ref "TlsConn"))],
  .interfaceD "UnixAddr" [] [
    fld "transport" (.union (.lit "unix") (.lit "unixpacket")),
    fld "path" .str],
  .interfaceD "UnixConn" [.ref "Conn"] [],
  .interfaceD "WriteFileOptions" [] [
    fldOpt "append" .boolT,
    fldOpt "create" .boolT,
    fldOpt "createNew" .boolT,
    fldOpt "mode" .num,
    fldOpt "signal" (.ref "AbortSignal")],
  .interfaceD "WritePermissionDescriptor" [] [
    fld "name" (.lit "write"),
    fldOpt "path" pathT],
  .interfaceD "Writer" [] [
    meth "write" [pr "p" u8] (prom .num)],
  .interfaceD "WriterSync" [] [
    meth "writeSync" [pr "p" u8] .num],
  .interfaceD "CAARecord" [] [
    fld "critical" .boolT,
    fld "tag" .str,
    fld "value" .str],
  .interfaceD "MXRecord" [] [
    fld "preference" .num,
    fld "exchange" .str],
  .interfaceD "NAPTRRecord" [] [
    fld "order" .num,
    fld "preference" .num,
    fld "flags" .str,
    fld "services" .str,
    fld "regexp" .str,
    fld "replacement" .str],
  .interfaceD "ResolveDnsOptions" [] [
    fldOpt "nameServer" (.objCons "ipAddr" false false .str
      (.objCons "port" true false .num .objNil)),
    fldOpt "signal" (.ref "AbortSignal")],
  .interfaceD "SOARecord" [] [
    fld "mname" .str,
    fld "rname" .str,
    fld "serial" .num,
    fld "refresh" .num,
    fld "retry" .num,
    fld "expire" .num,
    fld "minimum" .num],
  .interfaceD "SRVRecord" [] [
    fld "priority" .num,
    fld "weight" .num,
    fld "port" .num,
    fld "target" .str],
  .typeAliasD "RecordType" (.union (.lit "A") (.union (.lit "AAAA")
    (.union (.lit "ANAME") (.union (.lit "CAA") (.union (.lit "CNAME")
    (.union (.lit "MX") (.union (.lit "NAPTR") (.union (.lit "NS")
    (.union (.lit "PTR") (.union (.lit "SOA") (.union (.lit "SRV")
    (.lit "TXT"))))))))))))]

/-- Chunk 6 of the `Deno` namespace: the trailing constants (`build` through
`stderr`), the `errors` sub-namespace marker, the remaining interfaces and
the `futime`/`utime` functions, in source order. -/
def denoDecls6 : List Decl := [
  econst "build" (.objCons "target" false false .str
    (.objCons "arch" false false (.union (.lit "x86_64") (.lit "aarch64"))
    (.objCons "os" false false (.union (.lit "darwin") (.union (.lit "linux")
      (.union (.lit "windows") (.union (.lit "freebsd") (.union (.lit "netbsd")
        (.union (.lit "aix") (.union (.lit "solaris") (.lit "illumos"))))))))
    (.objCons "vendor" false false .str
    (.objCons "env" true false .str .objNil))))),
  econst "customInspect" .uniqueSymbol,
  econst "env" (.ref "Env"),
  .namespaceD "errors",
  econst "mainModule" .str,
  efn "metrics" [] (.ref "Metrics"),
  econst "noColor" .boolT,
  econst "permissions" (.ref "Permissions"),
  econst "pid" .num,
  econst "ppid" .num,
  efn "resources" [] (.ref "ResourceMap"),
  econst "version" (.objCons "deno" false false .str
    (.objCons "v8" false false .str
    (.objCons "typescript" false false .str .objNil))),
  econst "stdin" (.inter (.ref "Reader") (.inter (.ref "ReaderSync")
    (.inter (.ref "Closer") (.objCons "rid" false true .num
      (.objCons "readable" false true (.app1 "ReadableStream" u8)
      (.objMeth "setRaw"
        (.fn2 "mode" false .boolT "options" true (.ref "SetRawOptions") .voidT)
        .objNil)))))),
  econst "stdout" (.inter (.ref "Writer") (.inter (.ref "WriterSync")
    (.inter (.ref "Closer") (.objCons "rid" false true .num
      (.objCons "writable" false true (.app1 "WritableStream" u8) .objNil))))),
  econst "stderr" (.inter (.ref "Writer") (.inter (.ref "WriterSync")
    (.inter (.ref "Closer") (.objCons "rid" false true .num
      (.objCons "writable" false true (.app1 "WritableStream" u8) .objNil))))),
  .interfaceD "TlsHandshakeInfo" [] [],
  .interfaceD "TlsHandshakeInfo" [] [
    fld "alpnProtocol" (.union .str .nullT)],
  .interfaceD "UnixConnectOptions" [] [
    fld "transport" (.lit "unix"),
    fld "path" .str],
  .interfaceD "UnixListenOptions" [] [
    fld "path" .str],
  efn "futime" [pr "rid" .num, pr "atime" (.union .num (.ref "Date")),
    pr "mtime" (.union .num (.ref "Date"))] promVoid,
  efn "futimeSync" [pr "rid" .num, pr "atime" (.union .num (.ref "Date")),
    pr "mtime" (.union .num (.ref "Date"))] .voidT,
  efn "utime" [pr "path" pathT, pr "atime" (.union .num (.ref "Date")),
    pr "mtime" (.union .num (.ref "Date"))] promVoid,
  efn "utimeSync" [pr "path" pathT, pr "atime" (.union .num (.ref "Date")),
    pr "mtime" (.union .num (.ref "Date"))] .voidT]

/-- All declarations of the exported `Deno` namespace, in source order. -/
def denoDecls : List Decl :=
  denoDecls1 ++ denoDecls2 ++ denoDecls3 ++ denoDecls4 ++ denoDecls5 ++ denoDecls6

/-- The declarations of the nested `Deno.errors` namespace, in source order:
eighteen error classes, each declared `extends Error`; only `NotFound`
declares an own member (`code: string`). -/
def errorsDecls : List Decl := [
  .classD "AddrInUse" [] (some "Error") none [],
  .classD "AddrNotAvailable" [] (some "Error") none [],
  .classD "AlreadyExists" [] (some "Error") none [],
  .classD "BadResource" [] (some "Error") none [],
  .classD "BrokenPipe" [] (some "Error") none [],
  .classD "Busy" [] (some "Error") none [],
  .classD "ConnectionAborted" [] (some "Error") none [],
  .classD "ConnectionRefused" [] (some "Error") none [],
  .classD "ConnectionReset" [] (some "Error") none [],
  .classD "Http" [] (some "Error") none [],
  .classD "Interrupted" [] (some "Error") none [],
  .classD "InvalidData" [] (some "Error") none [],
  .classD "NotConnected" [] (some "Error") none [],
  .classD "NotFound" [] (some "Error") none [
    fld "code" .str],
  .classD "PermissionDenied" [] (some "Error") none [],
  .classD "TimedOut" [] (some "Error") none [],
  .classD "UnexpectedEof" [] (some "Error") none [],
  .classD "WriteZero" [] (some "Error") none []]

/-- The declarations of the `declare module "@deno/shim-deno/test-internals"`
block at the end of the file. -/
def testInternalsDecls : List Decl := [
  .typeAliasD "TestDefinition" (.ref "Deno.TestDefinition"),
  econst "testDefinitions" (.arr (.ref "TestDefinition"))]

/-- Every declaration of the exported surface of the file: the `Deno`
namespace, its nested `errors` namespace and the test-internals module. -/
def exportedDecls : List Decl := denoDecls ++ errorsDecls ++ testInternalsDecls

/-!
Analysis functions over the embedded declaration surface.
-/

namespace TsType

/-- Whether the type expression mentions the `AbortSignal` type anywhere. -/
def mentionsAbortSignal : TsType → Bool
  | ref n => n == "AbortSignal"
  | app1 n a => n == "AbortSignal" || a.mentionsAbortSignal
  | app2 n a b => n == "AbortSignal" || a.mentionsAbortSignal || b.mentionsAbortSignal
  | union a b => a.mentionsAbortSignal || b.mentionsAbortSignal
  | inter a b => a.mentionsAbortSignal || b.mentionsAbortSignal
  | arr a => a.mentionsAbortSignal
  | roArr a => a.mentionsAbortSignal
  | tupleRest a b => a.mentionsAbortSignal || b.mentionsAbortSignal
  | fn0 r => r.mentionsAbortSignal
  | fn1 _ _ a r => a.mentionsAbortSignal || r.mentionsAbortSignal
  | fn2 _ _ a _ _ b r =>
      a.mentionsAbortSignal || b.mentionsAbortSignal || r.mentionsAbortSignal
  | objCons _ _ _ t rest => t.mentionsAbortSignal || rest.mentionsAbortSignal
  | objMeth _ s rest => s.mentionsAbortSignal || rest.mentionsAbortSignal
  | indexSig k v => k.mentionsAbortSignal || v.mentionsAbortSignal
  | cond a b c d => a.mentionsAbortSignal || b.mentionsAbortSignal
      || c.mentionsAbortSignal || d.mentionsAbortSignal
  | idx a b => a.mentionsAbortSignal || b.mentionsAbortSignal
  | typeofRef n => n == "AbortSignal"
  | impRefApp _ n a => n == "AbortSignal" || a.mentionsAbortSignal
  | impRef _ n => n == "AbortSignal"
  | _ => false

/-- The members of a union type, flattening nested unions. -/
def unionParts : TsType → List TsType
  | union a b => a.unionParts ++ b.unionParts
  | t => [t]

/-- The members of an intersection type, flattening nested intersections. -/
def interParts : TsType → List TsType
  | inter a b => a.interParts ++ b.interParts
  | t => [t]

/-- The field list of an object type literal as `(name, optional, readonly,
type)` tuples (skipping object-literal methods). -/
def objFields : TsType → List (String × Bool × Bool × TsType)
  | objCons n o r t rest => (n, o, r, t) :: rest.objFields
  | objMeth _ _ rest => rest.objFields
  | _ => []

/-- The referenced name of a plain named-type reference. -/
def refName : TsType → Option String
  | ref n => some n
  | _ => none

/-- Whether every value inhabiting the type is a TypeScript primitive value
(string, number, boolean, bigint, `null`, `undefined`, or a literal of one of
these); a union is primitive when all of its members are. -/
def isPrimitive : TsType → Bool
  | str | num | boolT | bigintT | undefT | nullT => true
  | lit _ | numLit _ | trueLit | falseLit => true
  | union a b => a.isPrimitive && b.isPrimitive
  | _ => false

end TsType

namespace Member

/-- The field data `(name, optional, readonly, type)` of a property member. -/
def fieldData : Member → Option (String × Bool × Bool × TsType)
  | .field n o r t => some (n, o, r, t)
  | _ => none

/-- Whether the member is a property (field) declaration. -/
def isField : Member → Bool
  | .field _ _ _ _ => true
  | _ => false

/-- Whether the member is declared as a signature only, with no body. -/
def declarationOnly : Member → Bool
  | .method _ _ _ hasBody => !hasBody
  | .getter _ _ hasBody => !hasBody
  | .ctorSig _ hasBody => !hasBody
  | _ => true

/-- The `(owner, member)` tags of the member positions whose declared type
mentions `AbortSignal`, the owner name being supplied by the caller. -/
def abortTagged (owner : String) : Member → List (String × String)
  | .field n _ _ t => if t.mentionsAbortSignal then [(owner, n)] else []
  | .staticField n _ t => if t.mentionsAbortSignal then [(owner, n)] else []
  | .method n ps r _ =>
      if ps.any (fun p => p.ty.mentionsAbortSignal) || r.mentionsAbortSignal
      then [(owner, n)] else []
  | .optMethod n ps r =>
      if ps.any (fun p => p.ty.mentionsAbortSignal) || r.mentionsAbortSignal
      then [(owner, n)] else []
  | .getter n r _ => if r.mentionsAbortSignal then [(owner, n)] else []
  | .ctorSig ps _ =>
      if ps.any (fun p => p.ty.mentionsAbortSignal) then [(owner, "constructor")] else []
  | .callSig ps r =>
      if ps.any (fun p => p.ty.mentionsAbortSignal) || r.mentionsAbortSignal
      then [(owner, "call")] else []
  | .symbolMethod s r => if r.mentionsAbortSignal then [(owner, s)] else []
  | .indexMember k kt vt =>
      if kt.mentionsAbortSignal || vt.mentionsAbortSignal then [(owner, k)] else []
  | .privateSlot => []

end Member

namespace Decl

/-- The declared name of a top-level declaration. -/
def name : Decl → String
  | .funcD n _ _ _ _ => n
  | .constD n _ _ => n
  | .classD n _ _ _ _ => n
  | .interfaceD n _ _ => n
  | .typeAliasD n _ => n
  | .enumD n _ => n
  | .namespaceD n => n

/-- The member list of a class or interface declaration. -/
def membersOf : Decl → List Member
  | .classD _ _ _ _ ms => ms
  | .interfaceD _ _ ms => ms
  | _ => []

/-- Whether the declaration consists of signatures only: no function body and
no initializer anywhere. -/
def declarationOnly : Decl → Bool
  | .funcD _ _ _ _ hasBody => !hasBody
  | .constD _ _ hasInit => !hasInit
  | .classD _ _ _ _ ms => ms.all Member.declarationOnly
  | .interfaceD _ _ ms => ms.all Member.declarationOnly
  | _ => true

/-- The `(owner, position)` tags of every position of the declaration whose
declared type mentions `AbortSignal`. -/
def abortOccurrences : Decl → List (String × String)
  | .funcD n typs ps r _ =>
      (if typs.any (fun tp =>
          tp.constraint.mentionsAbortSignal || tp.dflt.mentionsAbortSignal)
        then [(n, "typeParams")] else []) ++
      (ps.filter (fun p => p.ty.mentionsAbortSignal)).map (fun p => (n, p.name)) ++
      (if r.mentionsAbortSignal then [(n, "return")] else [])
  | .constD n t _ => if t.mentionsAbortSignal then [(n, "type")] else []
  | .classD n typs _ _ ms =>
      (if typs.any (fun tp =>
          tp.constraint.mentionsAbortSignal || tp.dflt.mentionsAbortSignal)
        then [(n, "typeParams")] else []) ++
      (ms.map (Member.abortTagged n)).flatten
  | .interfaceD n ext ms =>
      (if ext.any TsType.mentionsAbortSignal then [(n, "extends")] else []) ++
      (ms.map (Member.abortTagged n)).flatten
  | .typeAliasD n t => if t.mentionsAbortSignal then [(n, "alias")] else []
  | .enumD _ _ => []
  | .namespaceD _ => []

end Decl

/-- The declarations of the exported surface carrying a given name
(TypeScript merges multiple interface declarations of one name). -/
def declsNamed (n : String) : List Decl :=
  exportedDecls.filter (fun d => d.name == n)

/-- The declared property fields of the named class or interface, merged
across its declarations, as `(name, optional, readonly, type)` tuples. -/
def fieldsOf (n : String) : List (String × Bool × Bool × TsType) :=
  ((declsNamed n).map (fun d => d.membersOf.filterMap Member.fieldData)).flatten

/-- The declared signatures `(params, ret)` of method `m` of class or
interface `n` (several entries for overloads). -/
def methodSigs (n m : String) : List (List Param × TsType) :=
  ((declsNamed n).map (fun d => d.membersOf.filterMap (fun mem =>
    match mem with
    | .method mn ps r _ => if mn == m then some (ps, r) else none
    | _ => none))).flatten

/-- The declared signatures `(params, ret)` of the free function `n` of the
`Deno` namespace (several entries for overloads). -/
def funcSigs (n : String) : List (List Param × TsType) :=
  denoDecls.filterMap (fun d =>
    match d with
    | .funcD fn _ ps r _ => if fn == n then some (ps, r) else none
    | _ => none)

/-- The flattened union members of the named type alias. -/
def aliasUnionParts (n : String) : List TsType :=
  ((declsNamed n).filterMap (fun d =>
    match d with
    | .typeAliasD _ t => some t.unionParts
    | _ => none)).flatten

/-- Every `(owner, position)` pair of the exported surface whose declared
type mentions `AbortSignal`. -/
def abortSignalOccurrences : List (String × String) :=
  (exportedDecls.map Decl.abortOccurrences).flatten

/-- The names of the eight permission descriptor interfaces, read off from
the `Deno.PermissionDescriptor` union alias. -/
def descriptorIfaceNames : List String :=
  (aliasUnionParts "PermissionDescriptor").filterMap TsType.refName

/-- The literal value of the `name` discriminant field of the named
descriptor interface, when it is a required string-literal field. -/
def discriminantOf (n : String) : Option String :=
  match (fieldsOf n).filter (fun f => f.1 == "name") with
  | [(_, false, false, .lit s)] => some s
  | _ => none

/-- The scoping fields (all fields other than the `name` discriminant) of the
named descriptor interface. -/
def scopingFieldsOf (n : String) : List (String × Bool × Bool × TsType) :=
  (fieldsOf n).filter (fun f => f.1 != "name")

/-- The names of the free functions of the `Deno` namespace that take a
parameter named `rid`. -/
def ridFunctionNames : List String :=
  (denoDecls.filterMap (fun d =>
    match d with
    | .funcD n _ ps _ _ => if ps.any (fun p => p.name == "rid") then some n else none
    | _ => none)).dedup

/-- The `rid` property fields of an intersection type (as used by the
`stdin`/`stdout`/`stderr` constants). -/
def ridFieldsOfTy (t : TsType) : List (String × Bool × Bool × TsType) :=
  ((t.interParts.map TsType.objFields).flatten).filter (fun f => f.1 == "rid")

/-- The `rid` property fields declared by the named class or interface. -/
def ridFieldsOf (n : String) : List (String × Bool × Bool × TsType) :=
  (fieldsOf n).filter (fun f => f.1 == "rid")

/-- The declared type of the named `const` of the exported surface. -/
def constTy (n : String) : Option TsType :=
  match declsNamed n with
  | [.constD _ t _] => some t
  | _ => none

/-- The `extends` clause of a class declaration. -/
def Decl.extendsClass : Decl → Option String
  | .classD _ _ ext _ _ => ext
  | _ => none

/-- For a free-function declaration: no parameter type mentions
`AbortSignal`; vacuously true for non-function declarations. -/
def funcParamsAbortFree : Decl → Bool
  | .funcD _ _ ps _ _ => ps.all (fun p => !p.ty.mentionsAbortSignal)
  | _ => true

/-- For a free-function declaration that takes a parameter named `rid`: the
`rid` parameter is the first parameter, required, of type `number`, and is
the only parameter of that name; vacuously true otherwise. -/
def ridFirstAndUnique : Decl → Bool
  | .funcD _ _ ps _ _ =>
      !(ps.any (fun p => p.name == "rid")) ||
      (ps.head? == some (pr "rid" .num) &&
        (ps.filter (fun p => p.name == "rid")).length == 1)
  | _ => true

/-- Suffix test on strings by character lists (kernel-reducible). -/
def strEndsWith (s t : String) : Bool := t.data.isSuffixOf s.data

/-- Whether the declaration is one of the option/record interface
declarations of the namespace (name ending in `Options` or in
`PermissionDescriptor`). -/
def isOptionOrDescriptorIface : Decl → Bool
  | .interfaceD n _ _ => strEndsWith n "Options" || strEndsWith n "PermissionDescriptor"
  | _ => false

/-- The `rid` property fields of the declared type of the named constant. -/
def ridFieldsOfConst (n : String) : List (String × Bool × Bool × TsType) :=
  match constTy n with
  | some t => ridFieldsOfTy t
  | none => []

/-!
Theorems settling the claims about the declared surface.
-/

/-- C2. The `Deno.errors` namespace declares a parallel taxonomy of exactly
eighteen named error classes, including `NotFound`, `PermissionDenied`,
`ConnectionReset` and `BrokenPipe`, and every class declared in it is a
subclass of `Error` (each carries the clause `extends Error`). -/
theorem errors_taxonomy :
    errorsDecls.length = 18 ∧
    (["NotFound", "PermissionDenied", "ConnectionReset", "BrokenPipe"].all
      (fun n => (errorsDecls.map Decl.name).contains n)) = true ∧
    (errorsDecls.all (fun d => d.extendsClass == some "Error")) = true := by
  decide

/-- C10. Among the eighteen error classes of the `Deno.errors` namespace,
only `NotFound` declares an own member, namely `code: string`; every other
error class declares no members of its own. -/
theorem errors_members_only_notfound :
    errorsDecls.length = 18 ∧
    (errorsDecls.all (fun d =>
      if d.name == "NotFound" then d.membersOf == [fld "code" .str]
      else d.membersOf == [])) = true := by
  decide

/-- C4. The file is a pure declaration surface: every declaration of the
exported `Deno` namespace, of its nested `errors` namespace, of the
test-internals module, and of the non-exported support block, is a signature
only — no function, method, getter or constructor carries a body and no
constant carries an initializer. -/
theorem declaration_only_surface :
    ((supportDecls ++ exportedDecls).all Decl.declarationOnly) = true := by
  decide

/-- C5. Scanning every declared type of the exported surface, `AbortSignal`
occurs in exactly three positions — the optional `signal` fields of
`ReadFileOptions`, `WriteFileOptions` and `ResolveDnsOptions`, each of type
exactly `AbortSignal` — and no declared free function takes a parameter
whose type mentions `AbortSignal` (the abort signal is only forwarded
through those option bags). -/
theorem abort_signal_only_cancellation :
    abortSignalOccurrences =
      [("ReadFileOptions", "signal"), ("WriteFileOptions", "signal"),
        ("ResolveDnsOptions", "signal")] ∧
    fieldsOf "ReadFileOptions" = [("signal", true, false, .ref "AbortSignal")] ∧
    ((fieldsOf "WriteFileOptions").filter (fun f => f.1 == "signal")) =
      [("signal", true, false, .ref "AbortSignal")] ∧
    ((fieldsOf "ResolveDnsOptions").filter (fun f => f.1 == "signal")) =
      [("signal", true, false, .ref "AbortSignal")] ∧
    (denoDecls.all funcParamsAbortFree) = true := by
  decide

/-- C6 counterexample. The claim that each permission descriptor consists of
a literal `name` discriminant plus optional scoping fields of primitive type
is false as stated: the scoping field `path` of `ReadPermissionDescriptor`
is declared with type `string | URL`, and `URL` is not a primitive type, so
the field type admits non-primitive values. -/
theorem option_shapes_counterexample :
    scopingFieldsOf "ReadPermissionDescriptor" = [("path", true, false, pathT)] ∧
    TsType.isPrimitive pathT = false := by
  decide

/-- C6 amended. Every option/record interface of the namespace (name ending
in `Options` or `PermissionDescriptor`) is a plain record with only property
members; `OpenOptions` consists of exactly the seven optional fields `read`,
`write`, `append`, `truncate`, `create`, `createNew` (booleans) and `mode`
(number); `ListenOptions` of a required `port: number` and an optional
`hostname?: string`; and each of the eight permission descriptors of a
required literal `name` discriminant plus optional scoping fields whose type
is either primitive (including string-literal unions) or the union
`string | URL`. -/
theorem option_shapes_amended :
    fieldsOf "OpenOptions" =
      [("read", true, false, .boolT), ("write", true, false, .boolT),
        ("append", true, false, .boolT), ("truncate", true, false, .boolT),
        ("create", true, false, .boolT), ("createNew", true, false, .boolT),
        ("mode", true, false, .num)] ∧
    fieldsOf "ListenOptions" =
      [("port", false, false, .num), ("hostname", true, false, .str)] ∧
    descriptorIfaceNames.length = 8 ∧
    (descriptorIfaceNames.all (fun n =>
      (discriminantOf n).isSome &&
      (scopingFieldsOf n).all (fun f =>
        f.2.1 && (TsType.isPrimitive f.2.2.2 || f.2.2.2 == pathT)))) = true ∧
    ((denoDecls.filter isOptionOrDescriptorIface).all
      (fun d => d.membersOf.all Member.isField)) = true := by
  decide

/-- C7. Each declared open-resource type — the `FsFile` class, the `Conn`,
`FsWatcher` and `Listener` interfaces, and the declared types of the
`stdin`/`stdout`/`stderr` constants — exposes exactly one field named `rid`,
declared `readonly` of type `number`; the free functions of the namespace
taking a `rid` parameter are exactly `close`, `fdatasync(Sync)`,
`fstat(Sync)`, `fsync(Sync)`, `ftruncate(Sync)`, `read(Sync)`, `shutdown`,
`write(Sync)` and `futime(Sync)`, and in each of them the `rid` parameter is
the sole, first, required `number` handle parameter. -/
theorem rid_resource_surface :
    ridFieldsOf "FsFile" = [("rid", false, true, .num)] ∧
    ridFieldsOf "Conn" = [("rid", false, true, .num)] ∧
    ridFieldsOf "FsWatcher" = [("rid", false, true, .num)] ∧
    ridFieldsOf "Listener" = [("rid", false, true, .num)] ∧
    ridFieldsOfConst "stdin" = [("rid", false, true, .num)] ∧
    ridFieldsOfConst "stdout" = [("rid", false, true, .num)] ∧
    ridFieldsOfConst "stderr" = [("rid", false, true, .num)] ∧
    ridFunctionNames =
      ["close", "fdatasync", "fdatasyncSync", "fstat", "fstatSync", "fsync",
        "fsyncSync", "ftruncate", "ftruncateSync", "read", "readSync",
        "shutdown", "write", "writeSync", "futime", "futimeSync"] ∧
    (denoDecls.all ridFirstAndUnique) = true :=
  ⟨by decide, by decide, by decide, by decide, by decide, by decide, by decide,
   by decide, by decide⟩

/-- C8. The `Deno.SeekMode` enum has exactly the three members
`Start = 0`, `Current = 1`, `End = 2`, and `FsFile.seek` / `FsFile.seekSync`
each take an offset and a `Deno.SeekMode` and return the resulting cursor
position as a `number` (directly, resp. inside a `Promise`). -/
theorem seek_mode_surface :
    declsNamed "SeekMode" =
      [.enumD "SeekMode" [("Start", 0), ("Current", 1), ("End", 2)]] ∧
    methodSigs "FsFile" "seek" =
      [([pr "_offset" .num, pr "_whence" (.ref "Deno.SeekMode")], prom .num)] ∧
    methodSigs "FsFile" "seekSync" =
      [([pr "_offset" .num, pr "_whence" (.ref "Deno.SeekMode")], .num)] := by
  decide

/-- C9. For each async/sync pair `open`/`openSync`, `readFile`/
`readFileSync`, `readTextFile`/`readTextFileSync`, `writeFile`/
`writeFileSync`, the sync variant takes the same `path: string | URL` first
parameter and returns exactly the `T` for which the async variant returns
`Promise<T>`; `readFileSync` and `readTextFileSync` drop the options
parameter entirely, so the abort-signal option (the `signal` field of
`ReadFileOptions`) is reachable only from the async variants of those two
pairs. -/
theorem sync_async_pairs :
    funcSigs "open" =
      [([pr "path" pathT, pOpt "options" (.ref "OpenOptions")], prom (.ref "FsFile"))] ∧
    funcSigs "openSync" =
      [([pr "path" pathT, pOpt "options" (.ref "OpenOptions")], .ref "FsFile")] ∧
    funcSigs "readFile" =
      [([pr "path" pathT, pOpt "options" (.ref "ReadFileOptions")], prom u8)] ∧
    funcSigs "readFileSync" = [([pr "path" pathT], u8)] ∧
    funcSigs "readTextFile" =
      [([pr "path" pathT, pOpt "options" (.ref "ReadFileOptions")], prom .str)] ∧
    funcSigs "readTextFileSync" = [([pr "path" pathT], .str)] ∧
    funcSigs "writeFile" =
      [([pr "path" pathT, pr "data" (.union u8 (.app1 "ReadableStream" u8)),
          pOpt "options" (.ref "WriteFileOptions")], promVoid)] ∧
    funcSigs "writeFileSync" =
      [([pr "path" pathT, pr "data" u8, pOpt "options" (.ref "WriteFileOptions")], .voidT)] ∧
    ((fieldsOf "ReadFileOptions").filter (fun f => f.1 == "signal")) =
      [("signal", true, false, .ref "AbortSignal")] := by
  decide

/-- C3. `Deno.PermissionDescriptor` is the discriminated union of exactly
eight descriptor interfaces whose required literal `name` discriminants are
pairwise distinct and spell `run`, `read`, `write`, `net`, `env`, `sys`,
`ffi`, `hrtime`; the `Permissions` class declares `query`, `request` and
`revoke` (returning `Promise<PermissionStatus>`) and their `Sync` variants
(returning `PermissionStatus`), each taking one `Deno.PermissionDescriptor`;
and `PermissionStatus.state` has type `Deno.PermissionState`, whose values
are exactly the literals `"granted"`, `"denied"`, `"prompt"`. -/
theorem permissions_surface :
    descriptorIfaceNames.length = 8 ∧
    descriptorIfaceNames.map discriminantOf =
      [some "run", some "read", some "write", some "net",
        some "env", some "sys", some "ffi", some "hrtime"] ∧
    (descriptorIfaceNames.map discriminantOf).Nodup ∧
    methodSigs "Permissions" "query" =
      [([pr "desc" (.ref "Deno.PermissionDescriptor")], prom (.ref "PermissionStatus"))] ∧
    methodSigs "Permissions" "request" =
      [([pr "desc" (.ref "Deno.PermissionDescriptor")], prom (.ref "PermissionStatus"))] ∧
    methodSigs "Permissions" "revoke" =
      [([pr "desc" (.ref "Deno.PermissionDescriptor")], prom (.ref "PermissionStatus"))] ∧
    methodSigs "Permissions" "querySync" =
      [([pr "_desc" (.ref "Deno.PermissionDescriptor")], .ref "PermissionStatus")] ∧
    methodSigs "Permissions" "requestSync" =
      [([pr "desc" (.ref "Deno.PermissionDescriptor")], .ref "PermissionStatus")] ∧
    methodSigs "Permissions" "revokeSync" =
      [([pr "_desc" (.ref "Deno.PermissionDescriptor")], .ref "PermissionStatus")] ∧
    ((fieldsOf "PermissionStatus").filter (fun f => f.1 == "state")) =
      [("state", false, true, .ref "Deno.PermissionState")] ∧
    aliasUnionParts "PermissionState" =
      [.lit "granted", .lit "denied", .lit "prompt"] := by
  decide

end ShimDeno

